import Mathlib

/-!
Verification of the notification-service repository (whatsapp / email / sms
dispatch microservices) against its natural-language specification.

Strings are modelled as lists of characters; Go standard-library string
functions used by the code (`strings.ReplaceAll`, `strings.HasPrefix`,
`strings.Contains`) are embedded as executable Lean functions below.
-/

/-- Go strings are modelled as lists of characters. -/
abbrev Str := List Char

/-- Decidable equality for `Except`, used to evaluate fallible code paths
on concrete inputs. -/
instance {ε α : Type} [DecidableEq ε] [DecidableEq α] :
    DecidableEq (Except ε α) := fun x y =>
  match x, y with
  | .ok a, .ok b =>
    if h : a = b then .isTrue (congrArg Except.ok h)
    else .isFalse (fun hc => h (Except.ok.inj hc))
  | .error a, .error b =>
    if h : a = b then .isTrue (congrArg Except.error h)
    else .isFalse (fun hc => h (Except.error.inj hc))
  | .ok _, .error _ => .isFalse (fun hc => Except.noConfusion hc)
  | .error _, .ok _ => .isFalse (fun hc => Except.noConfusion hc)

/-- Conversion from Lean string literals to the `Str` model. -/
def str (s : String) : Str := s.toList

/-- Go `strings.HasPrefix s pat`: `pat` occurs at the start of `s`. -/
def startsWith (s pat : Str) : Bool :=
  match pat, s with
  | [], _ => true
  | _ :: _, [] => false
  | pc :: pr, c :: r => pc == c && startsWith r pr

/-- Go `strings.Contains s pat`: `pat` occurs somewhere in `s`. -/
def containsSub (s pat : Str) : Bool :=
  match s with
  | [] => pat.isEmpty
  | _ :: rest => startsWith s pat || containsSub rest pat

/-- Fuel-driven scanner for `strings.ReplaceAll`: scans left to right,
replaces non-overlapping occurrences of `pat` by `rep`, and never re-scans
replaced text.  The fuel only guarantees structural termination; it is
always instantiated large enough (see `replaceAll`). -/
def replaceAllF : Nat → Str → Str → Str → Str
  | 0, s, _, _ => s
  | _ + 1, [], _, _ => []
  | fuel + 1, c :: rest, pat, rep =>
    if pat ≠ [] ∧ startsWith (c :: rest) pat = true then
      rep ++ replaceAllF fuel ((c :: rest).drop pat.length) pat rep
    else
      c :: replaceAllF fuel rest pat rep

/-- Go `strings.ReplaceAll s pat rep` for non-empty patterns (every pattern
used in this repository is non-empty; for an empty pattern this model
returns `s` unchanged, while Go would interleave `rep`). -/
def replaceAll (s pat rep : Str) : Str :=
  replaceAllF (s.length + 1) s pat rep

/-- The fuel argument of `replaceAllF` is irrelevant as long as it exceeds
the length of the scanned string. -/
theorem replaceAllF_fuel (pat rep : Str) :
    ∀ f₁ f₂ s, s.length < f₁ → s.length < f₂ →
      replaceAllF f₁ s pat rep = replaceAllF f₂ s pat rep := by
  intro f₁
  induction f₁ with
  | zero => intro f₂ s h₁ _; omega
  | succ f ih =>
    intro f₂ s h₁ h₂
    match f₂, s with
    | 0, s => omega
    | g + 1, [] => rfl
    | g + 1, c :: rest =>
      simp only [replaceAllF]
      by_cases hc : pat ≠ [] ∧ startsWith (c :: rest) pat = true
      · simp only [if_pos hc]
        have hlen : ((c :: rest).drop pat.length).length < f := by
          have hp : 1 ≤ pat.length := by
            cases pat with
            | nil => exact absurd rfl hc.1
            | cons a b => simp
          simp only [List.length_drop, List.length_cons] at *
          omega
        have hlen2 : ((c :: rest).drop pat.length).length < g := by
          have hp : 1 ≤ pat.length := by
            cases pat with
            | nil => exact absurd rfl hc.1
            | cons a b => simp
          simp only [List.length_drop, List.length_cons] at *
          omega
        rw [ih g _ hlen hlen2]
      · simp only [if_neg hc]
        have hlen : rest.length < f := by
          simp only [List.length_cons] at h₁; omega
        have hlen2 : rest.length < g := by
          simp only [List.length_cons] at h₂; omega
        rw [ih g rest hlen hlen2]

/-- Unfolding: replacing in the empty string. -/
theorem replaceAll_nil (pat rep : Str) : replaceAll [] pat rep = [] := rfl

/-- Unfolding: the pattern matches at the head of the string. -/
theorem replaceAll_cons_pos {c : Char} {rest pat : Str} (rep : Str)
    (hne : pat ≠ []) (h : startsWith (c :: rest) pat = true) :
    replaceAll (c :: rest) pat rep
      = rep ++ replaceAll ((c :: rest).drop pat.length) pat rep := by
  have hp : 1 ≤ pat.length := by
    cases pat with
    | nil => exact absurd rfl hne
    | cons a b => simp
  simp only [replaceAll, List.length_cons, replaceAllF, if_pos (And.intro hne h)]
  congr 1
  apply replaceAllF_fuel
  · simp only [List.length_drop, List.length_cons]; omega
  · simp only [List.length_drop, List.length_cons]; omega

/-- Unfolding: the pattern does not match at the head of the string. -/
theorem replaceAll_cons_neg {c : Char} {rest pat : Str} (rep : Str)
    (h : ¬ (pat ≠ [] ∧ startsWith (c :: rest) pat = true)) :
    replaceAll (c :: rest) pat rep = c :: replaceAll rest pat rep := by
  simp only [replaceAll, List.length_cons, replaceAllF, if_neg h]

/-- Replacing a single character by the empty string removes exactly the
occurrences of that character: it is `List.filter`. -/
theorem replaceAll_single_filter (c : Char) :
    ∀ s : Str, replaceAll s [c] [] = s.filter (fun x => x != c) := by
  have main : ∀ fuel s, s.length < fuel →
      replaceAllF fuel s [c] [] = s.filter (fun x => x != c) := by
    intro fuel
    induction fuel with
    | zero => intro s h; omega
    | succ f ih =>
      intro s h
      match s with
      | [] => rfl
      | x :: rest =>
        simp only [replaceAllF]
        by_cases hx : x = c
        · subst hx
          have hs : startsWith (x :: rest) [x] = true := by
            simp [startsWith]
          rw [if_pos (And.intro (by simp) hs)]
          simp only [List.length_cons] at h
          simp only [List.length_singleton, List.drop_succ_cons, List.drop_zero,
            List.nil_append]
          rw [ih rest (by omega)]
          simp [List.filter]
        · have hs : ¬ ([c] ≠ [] ∧ startsWith (x :: rest) [c] = true) := by
            simp [startsWith, hx]
            intro hcx
            exact absurd hcx.symm hx
          rw [if_neg hs]
          simp only [List.length_cons] at h
          rw [ih rest (by omega)]
          have hb : (x != c) = true := by simp [hx]
          simp [List.filter_cons, hb]
  intro s
  exact main (s.length + 1) s (by omega)

/-! ## Template rendering

`RenderTemplate` embeds the identical Go function found in
`whatsapp-service/internal/utils` and in the email service's utils package:
it guards against the empty template and then, for each `(key, value)` entry
of the parameter map (iteration order modelled by the list order), replaces
every occurrence of the placeholder `"{" + key + "}"` in the current result
string.  `renderTemplateSMS` is the sms-service copy, which has no
empty-template guard. -/

/-- Placeholder string `"{" ++ key ++ "}"` built by the Go renderers. -/
def placeholder (key : Str) : Str := '{' :: (key ++ ['}'])

/-- One pass of the renderer's loop body: replace all occurrences of the
entry's placeholder in the accumulated result. -/
def renderStep (acc : Str) (kv : Str × Str) : Str :=
  replaceAll acc (placeholder kv.1) kv.2

/-- Template renderer of the whatsapp and email services
(`utils.RenderTemplate`). -/
def RenderTemplate (template : Str) (params : List (Str × Str)) : Str :=
  if template = [] then []
  else params.foldl renderStep template

/-- Template renderer of the sms service (`renderTemplate` in its `main`
package): the same fold, without the empty-template guard. -/
def renderTemplateSMS (template : Str) (params : List (Str × Str)) : Str :=
  params.foldl renderStep template

/-- Email-service helper rendering subject and body with the same params
(`utils.RenderEmailTemplate`). -/
def RenderEmailTemplate (subject body : Str) (params : List (Str × Str)) :
    Str × Str :=
  (RenderTemplate subject params, RenderTemplate body params)

/-- The rendering fold maps the empty string to the empty string. -/
theorem foldl_renderStep_nil (params : List (Str × Str)) :
    params.foldl renderStep [] = [] := by
  induction params with
  | nil => rfl
  | cons kv rest ih =>
    simp only [List.foldl_cons, renderStep, replaceAll_nil]
    exact ih

/-- The two renderer copies agree on every input. -/
theorem RenderTemplate_eq_sms (template : Str) (params : List (Str × Str)) :
    RenderTemplate template params = renderTemplateSMS template params := by
  by_cases h : template = []
  · subst h
    simp [RenderTemplate, renderTemplateSMS, foldl_renderStep_nil]
  · simp [RenderTemplate, renderTemplateSMS, h]

/-- Sequential characterization: rendering with `(k, v) :: ps` is one
`ReplaceAll` pass for `k` followed by rendering the intermediate result with
the remaining entries — later entries re-scan text substituted by earlier
ones. -/
theorem RenderTemplate_cons (template k v : Str) (ps : List (Str × Str)) :
    RenderTemplate template ((k, v) :: ps)
      = RenderTemplate (replaceAll template (placeholder k) v) ps := by
  by_cases h : template = []
  · subst h
    simp [RenderTemplate, replaceAll_nil, foldl_renderStep_nil]
  · by_cases h2 : replaceAll template (placeholder k) v = []
    · simp [RenderTemplate, h, h2, List.foldl_cons, renderStep,
        foldl_renderStep_nil]
    · simp [RenderTemplate, h, h2, List.foldl_cons, renderStep]

/-! ## Spec-side simultaneous substitution

`specSubst` is modelled from the specification's words for the renderer
contract ("for every occurrence of a parameter key wrapped in single braces
— `{key}` — replace it with the corresponding value; unmatched placeholders
are left verbatim; no recursive re-substitution"): a single left-to-right
scan of the template; wherever the placeholder of some key of the map
occurs, the corresponding value is emitted (never re-scanned) and the scan
resumes after the placeholder; every other character is copied verbatim. -/

/-- First parameter entry whose placeholder occurs at the head of `s`. -/
def findEntryAt (params : List (Str × Str)) (s : Str) : Option (Str × Str) :=
  params.find? (fun kv => startsWith s (placeholder kv.1))

/-- Fuel-driven scanner for `specSubst`. -/
def specSubstF : Nat → List (Str × Str) → Str → Str
  | 0, _, s => s
  | _ + 1, _, [] => []
  | fuel + 1, params, c :: rest =>
    match findEntryAt params (c :: rest) with
    | some kv =>
        kv.2 ++ specSubstF fuel params ((c :: rest).drop (placeholder kv.1).length)
    | none => c :: specSubstF fuel params rest

/-- Simultaneous one-pass substitution, modelled from the spec's renderer
contract. -/
def specSubst (params : List (Str × Str)) (template : Str) : Str :=
  specSubstF (template.length + 1) params template

/-- On a single-entry parameter map, the Go renderer is exactly the
simultaneous one-pass substitution: every occurrence of `{k}` is replaced
by `v`, everything else — unmatched placeholders included — is left
verbatim, and the substituted value is never re-scanned. -/
theorem replaceAllF_eq_specSubstF (k v : Str) :
    ∀ fuel s, replaceAllF fuel s (placeholder k) v = specSubstF fuel [(k, v)] s := by
  intro fuel
  induction fuel with
  | zero => intro s; rfl
  | succ f ih =>
    intro s
    match s with
    | [] => rfl
    | c :: rest =>
      simp only [replaceAllF, specSubstF, findEntryAt, List.find?]
      by_cases h : startsWith (c :: rest) (placeholder k) = true
      · rw [if_pos (And.intro (by simp [placeholder]) h)]
        simp only [h]
        rw [ih]
      · rw [if_neg (fun hc => h hc.2)]
        have hb : startsWith (c :: rest) (placeholder k) = false :=
          Bool.not_eq_true _ ▸ (by simpa using h)
        simp only [hb]
        rw [ih]

/-! ## Phone-number cleanup

`WAUtils` embeds `whatsapp-service/internal/utils/phone.go`; `SMSSvc`'s
`cleanPhoneNumber` (defined later with the sms service) embeds the copy in
the sms service's `main` package, which does not strip dots and performs no
validation. -/

namespace WAUtils

/-- Character-removal passes shared by the two cleanup copies: the chat
version removes spaces, dashes, parentheses and dots (the sms version stops
before the dot pass). -/
def cleanNoDots (phone : Str) : Str :=
  replaceAll (replaceAll (replaceAll (replaceAll phone [' '] []) ['-'] []) ['('] []) [')'] []

/-- The chat service's removal passes: spaces, dashes, parentheses, dots. -/
def cleanCore (phone : Str) : Str :=
  replaceAll (cleanNoDots phone) ['.'] []

/-- Prepend `+` unless the string already starts with it
(`strings.HasPrefix(cleaned, "+")` guard in both cleanup copies). -/
def withPlus (s : Str) : Str :=
  if startsWith s ['+'] then s else '+' :: s

/-- Decision procedure for the anchored pattern `^\+[1-9]\d{1,14}$` of
`phoneNumberRegex` in `phone.go`: a `+`, a digit `1`–`9`, then 1 to 14
digits. -/
def matchesPhoneRegex (s : Str) : Bool :=
  match s with
  | '+' :: d :: rest =>
      (d.isDigit && d != '0')
        && rest.all (fun c => c.isDigit)
        && (1 ≤ rest.length && rest.length ≤ 14)
  | _ => false

/-- Error value `models.ErrInvalidPhoneNumber` of the whatsapp service. -/
inductive PhoneErr
  | invalidPhoneNumber
deriving DecidableEq

/-- Embeds `utils.CleanPhoneNumber` of the whatsapp service: reject the
empty string, strip separator characters, prepend `+` if missing, then
validate against `phoneNumberRegex`. -/
def CleanPhoneNumber (phone : Str) : Except PhoneErr Str :=
  if phone = [] then .error .invalidPhoneNumber
  else
    let cleaned := withPlus (cleanCore phone)
    if matchesPhoneRegex cleaned then .ok cleaned
    else .error .invalidPhoneNumber

/-- Characters kept by the chat cleanup passes. -/
def keepCharWA (c : Char) : Bool :=
  c != ' ' && c != '-' && c != '(' && c != ')' && c != '.'

/-- Characters kept by the sms cleanup passes (dots are kept). -/
def keepCharSMS (c : Char) : Bool :=
  c != ' ' && c != '-' && c != '(' && c != ')'

/-- The four dot-free removal passes together are one filter. -/
theorem cleanNoDots_eq_filter (phone : Str) :
    cleanNoDots phone = phone.filter keepCharSMS := by
  simp only [cleanNoDots, replaceAll_single_filter, List.filter_filter]
  apply List.filter_congr
  intro c _
  simp only [keepCharSMS]
  cases hs : (c != ' ') <;> cases hd : (c != '-') <;> cases hp : (c != '(')
    <;> cases hq : (c != ')') <;> simp [hs, hd, hp, hq]

/-- The chat service's five removal passes together are one filter. -/
theorem cleanCore_eq_filter (phone : Str) :
    cleanCore phone = phone.filter keepCharWA := by
  simp only [cleanCore, cleanNoDots_eq_filter, replaceAll_single_filter,
    List.filter_filter]
  apply List.filter_congr
  intro c _
  simp only [keepCharWA, keepCharSMS]
  cases hs : (c != ' ') <;> cases hd : (c != '-') <;> cases hp : (c != '(')
    <;> cases hq : (c != ')') <;> cases hx : (c != '.')
    <;> simp [hs, hd, hp, hq, hx]

end WAUtils

/-! ## WhatsApp service (chat channel) -/

namespace WASvc

/-- Error values of `whatsapp-service/internal/models/errors.go` that the
embedded code paths can produce. -/
inductive WAErr
  | invalidNotificationID
  | invalidRecipient
  | missingContent
  | invalidTemplate
  | invalidPhoneNumber
  | sendFailed (msg : Str)
deriving DecidableEq

/-- Inbound request of the whatsapp service
(`models.NotificationPayload`): `Params` and `ChannelConfig` maps are
modelled as association lists in iteration order; `Priority`, `MediaType`
are string newtypes in the source and are kept as strings. -/
structure NotificationPayload where
  NotificationID : Str
  MessageType : Str
  To : Str
  TemplateBody : Str
  Params : List (Str × Str)
  Priority : Str
  Locale : Str
  MediaURL : Str
  MediaType : Str
  TemplateName : Str
deriving DecidableEq

/-- Text part of a chat message (`models.TextMessage`). -/
structure TextMessage where
  PreviewURL : Bool
  Body : Str
deriving DecidableEq

/-- Media part of a chat message (`models.MediaMessage`). -/
structure MediaMessage where
  Link : Str
  Caption : Str
  Filename : Str
deriving DecidableEq

/-- Template language settings (`models.TemplateLanguage`). -/
structure TemplateLanguage where
  Code : Str
deriving DecidableEq

/-- Template parameter (`models.TemplateParameter`, text parameters only,
as built by the message builder). -/
structure TemplateParameter where
  ParamType : Str
  Text : Str
deriving DecidableEq

/-- Template component (`models.TemplateComponent`). -/
structure TemplateComponent where
  ComponentType : Str
  Parameters : List TemplateParameter
deriving DecidableEq

/-- Template part of a chat message (`models.TemplateMessage`). -/
structure TemplateMessage where
  Name : Str
  Language : TemplateLanguage
  Components : List TemplateComponent
deriving DecidableEq

/-- Outbound chat message (`models.WhatsAppMessage`): optional pointers of
the Go struct become `Option` fields; the Go field `Type` is rendered as
`MsgType`. -/
structure WhatsAppMessage where
  MessagingProduct : Str
  RecipientType : Str
  To : Str
  MsgType : Str
  Text : Option TextMessage
  Image : Option MediaMessage
  Document : Option MediaMessage
  Audio : Option MediaMessage
  Video : Option MediaMessage
  Template : Option TemplateMessage
deriving DecidableEq

/-- Payload validation (`NotificationPayload.IsValid`): identifier, then
recipient, then content (template body or template name); `none` means the
Go method returned `nil`. -/
def IsValid (n : NotificationPayload) : Option WAErr :=
  if n.NotificationID = [] then some .invalidNotificationID
  else if n.To = [] then some .invalidRecipient
  else if n.TemplateBody = [] ∧ n.TemplateName = [] then some .missingContent
  else none

/-- Embeds `utils.GetLanguageCode`: default `"en"`, else the part of the
locale before the first underscore. -/
def GetLanguageCode (locale : Str) : Str :=
  if locale = [] then str "en"
  else if containsSub locale ['_'] then locale.takeWhile (fun c => c != '_')
  else locale

/-- Embeds `MessageBuilder.buildTextMessage`. -/
def buildTextMessage (toAddr : Str) (payload : NotificationPayload) :
    Except WAErr WhatsAppMessage :=
  let body := RenderTemplate payload.TemplateBody payload.Params
  if body = [] then .error .missingContent
  else .ok
    { MessagingProduct := str "whatsapp"
      RecipientType := str "individual"
      To := toAddr
      MsgType := str "text"
      Text := some { PreviewURL := true, Body := body }
      Image := none, Document := none, Audio := none, Video := none
      Template := none }

/-- Embeds `MessageBuilder.buildMediaMessage`: the media payload is placed
in the field selected by `MediaType`, defaulting toAddr an image for an
unrecognized type. -/
def buildMediaMessage (toAddr : Str) (payload : NotificationPayload) :
    Except WAErr WhatsAppMessage :=
  if payload.MediaURL = [] then .error .missingContent
  else
    let caption := RenderTemplate payload.TemplateBody payload.Params
    let filename :=
      if payload.MediaType = str "document" then
        match payload.Params.lookup (str "filename") with
        | some f => f
        | none => []
      else []
    let mediaMsg : MediaMessage :=
      { Link := payload.MediaURL, Caption := caption, Filename := filename }
    let base : WhatsAppMessage :=
      { MessagingProduct := str "whatsapp"
        RecipientType := str "individual"
        To := toAddr
        MsgType := payload.MediaType
        Text := none
        Image := none, Document := none, Audio := none, Video := none
        Template := none }
    if payload.MediaType = str "image" then
      .ok { base with Image := some mediaMsg }
    else if payload.MediaType = str "document" then
      .ok { base with Document := some mediaMsg }
    else if payload.MediaType = str "audio" then
      .ok { base with Audio := some mediaMsg }
    else if payload.MediaType = str "video" then
      .ok { base with Video := some mediaMsg }
    else
      .ok { base with MsgType := str "image", Image := some mediaMsg }

/-- Embeds `MessageBuilder.buildTemplateMessage`: template name, language
code derived from the locale, and one body component holding the parameter
values (in map iteration order) when the parameter map is non-empty. -/
def buildTemplateMessage (toAddr : Str) (payload : NotificationPayload) :
    Except WAErr WhatsAppMessage :=
  if payload.TemplateName = [] then .error .invalidTemplate
  else
    let components :=
      if 0 < payload.Params.length then
        [{ ComponentType := str "body"
           Parameters := payload.Params.map (fun kv =>
             { ParamType := str "text", Text := kv.2 }) }]
      else []
    .ok
      { MessagingProduct := str "whatsapp"
        RecipientType := str "individual"
        To := toAddr
        MsgType := str "template"
        Text := none
        Image := none, Document := none, Audio := none, Video := none
        Template := some
          { Name := payload.TemplateName
            Language := { Code := GetLanguageCode payload.Locale }
            Components := components } }

/-- Embeds `MessageBuilder.BuildMessage`: media URL takes precedence, then
template name, then plain text. -/
def BuildMessage (payload : NotificationPayload) (toAddr : Str) :
    Except WAErr WhatsAppMessage :=
  if payload.MediaURL ≠ [] then buildMediaMessage toAddr payload
  else if payload.TemplateName ≠ [] then buildTemplateMessage toAddr payload
  else buildTextMessage toAddr payload

/-- A message whose populated shape is one of the four media fields. -/
def isMediaVariant (m : WhatsAppMessage) : Bool :=
  m.Image.isSome || m.Document.isSome || m.Audio.isSome || m.Video.isSome

/-- Embeds `NotificationService.ProcessNotification`, instrumented with the
list of messages handed toAddr the sender: validate, clean the phone number,
build, then send.  The channel sender (`whatsappClient.SendMessage`) is the
external collaborator and is a parameter; error wrapping with `fmt.Errorf`
preserves the wrapped error value, so errors are carried unwrapped. -/
def processNotificationT (payload : NotificationPayload)
    (send : WhatsAppMessage → Except WAErr Unit) :
    Except WAErr Unit × List WhatsAppMessage :=
  match IsValid payload with
  | some e => (.error e, [])
  | none =>
    match WAUtils.CleanPhoneNumber payload.To with
    | .error _ => (.error .invalidPhoneNumber, [])
    | .ok cleanTo =>
      match BuildMessage payload cleanTo with
      | .error e => (.error e, [])
      | .ok message =>
        match send message with
        | .error e => (.error e, [message])
        | .ok _ => (.ok (), [message])

end WASvc

/-! ## Email service -/

namespace EmailSvc

/-- Error values of `email-service/internal/models/errors.go` reachable in
the embedded code paths; `smtp` carries the message of an SMTP send
failure. -/
inductive EmailErr
  | invalidNotificationID
  | invalidRecipient
  | missingContent
  | invalidSubject
  | invalidEmailFormat
  | smtp (msg : Str)
deriving DecidableEq

/-- Leaf of a decoded JSON configuration value: a string, or anything
else (only string-typed values are ever extracted by the code). -/
inductive JLeaf
  | jstr (s : Str)
  | jother
deriving DecidableEq

/-- Decoded JSON value stored in the untyped `channelConfig` map
(`map[string]interface{}`): a string, a nested string-keyed map (probed
for the `"headers"` entry), or anything else. -/
inductive JVal
  | jstr (s : Str)
  | jmap (m : List (Str × JLeaf))
  | jother
deriving DecidableEq

/-- Inbound request of the email service (`models.NotificationPayload`);
the `fallbackChannels` field is carried but read by no embedded code path
and is omitted. -/
structure NotificationPayload where
  NotificationID : Str
  MessageType : Str
  To : Str
  TemplateBody : Str
  Params : List (Str × Str)
  ChannelConfig : List (Str × JVal)
  Priority : Str
  Locale : Str
deriving DecidableEq

/-- Header map of the outgoing email, a Go `map[string]string`: an
association list with at most one binding per key. -/
abbrev Headers := List (Str × Str)

/-- Go map assignment `m[k] = v`: any earlier binding of `k` is replaced. -/
def hset (m : Headers) (k v : Str) : Headers :=
  m.filter (fun p => !(p.1 == k)) ++ [(k, v)]

/-- Go map read `m[k]`. -/
def hget (m : Headers) (k : Str) : Option Str :=
  (m.find? (fun p => p.1 == k)).map (fun p => p.2)

/-- Reading the key just written returns the written value. -/
theorem hget_hset_self (m : Headers) (k v : Str) :
    hget (hset m k v) k = some v := by
  simp only [hget, hset]
  rw [List.find?_append]
  have hnone : (m.filter (fun p => !(p.1 == k))).find? (fun p => p.1 == k) = none := by
    rw [List.find?_eq_none]
    intro p hp
    have := List.of_mem_filter hp
    simpa using this
  simp [hnone, List.find?]

/-- Writing one key does not change reads of another key. -/
theorem hget_hset_ne (m : Headers) (k v k2 : Str) (hne : k2 ≠ k) :
    hget (hset m k v) k2 = hget m k2 := by
  simp only [hget, hset]
  rw [List.find?_append]
  have hfilter : (m.filter (fun p => !(p.1 == k))).find? (fun p => p.1 == k2)
      = m.find? (fun p => p.1 == k2) := by
    induction m with
    | nil => rfl
    | cons q rest ih =>
      by_cases hq : q.1 = k
      · have h1 : (!(q.1 == k)) = false := by simp [hq]
        have h2 : (q.1 == k2) = false := by
          simp [hq]
          exact fun hc => hne hc.symm
        simp only [List.filter_cons, h1, Bool.false_eq_true, if_false,
          List.find?, h2]
        exact ih
      · have h1 : (!(q.1 == k)) = true := by simp [hq]
        simp only [List.filter_cons, h1, if_true, List.find?]
        by_cases hq2 : q.1 = k2
        · simp [hq2]
        · have h2 : (q.1 == k2) = false := by simp [hq2]
          simp only [h2]
          exact ih
  rw [hfilter]
  cases hm : m.find? (fun p => p.1 == k2) with
  | some p => simp
  | none =>
    have h2 : (k == k2) = false := by
      simp
      exact fun hc => hne hc.symm
    simp [List.find?, h2]

/-- Priority constants of the email service's model. -/
def PriorityUrgent : Str := str "urgent"

/-- Priority constant `high`. -/
def PriorityHigh : Str := str "high"

/-- Priority constant `medium`. -/
def PriorityMedium : Str := str "medium"

/-- Priority constant `low`. -/
def PriorityLow : Str := str "low"

/-- Payload validation (`NotificationPayload.IsValid`): identifier, then
recipient, then template body. -/
def IsValid (n : NotificationPayload) : Option EmailErr :=
  if n.NotificationID = [] then some .invalidNotificationID
  else if n.To = [] then some .invalidRecipient
  else if n.TemplateBody = [] then some .missingContent
  else none

/-- Embeds `NotificationPayload.GetSubject`: the `"subject"` entry of the
channel configuration when it is a string, else the default
`"Notification"`. -/
def GetSubject (n : NotificationPayload) : Str :=
  match n.ChannelConfig.lookup (str "subject") with
  | some (.jstr s) => s
  | _ => str "Notification"

/-- Embeds `MessageBuilder.mapPriorityToHeader`: the Go `switch` over the
priority constants with default `"3 (Normal)"`. -/
def mapPriorityToHeader (priority : Str) : Str :=
  if priority = PriorityUrgent then str "1 (Highest)"
  else if priority = PriorityHigh then str "2 (High)"
  else if priority = PriorityMedium then str "3 (Normal)"
  else if priority = PriorityLow then str "4 (Low)"
  else str "3 (Normal)"

/-- Outgoing email message (`models.EmailMessage`). -/
structure EmailMessage where
  To : Str
  Subject : Str
  Body : Str
  MsgHeaders : Headers
deriving DecidableEq

/-- One iteration of the custom-header merge loop of `BuildEmailMessage`:
string-typed values are copied into the header map, everything else is
silently skipped. -/
def mergeHeader (acc : Headers) (kv : Str × JLeaf) : Headers :=
  match kv.2 with
  | .jstr s => hset acc kv.1 s
  | .jother => acc

/-- Embeds `MessageBuilder.BuildEmailMessage`: validate, pull the subject
from the channel config, render subject and body, then populate headers —
`X-Priority` only when a priority is set, `X-Notification-ID` only when the
identifier is set, then the string entries of `channelConfig["headers"]`. -/
def BuildEmailMessage (payload : NotificationPayload) :
    Except EmailErr EmailMessage :=
  match IsValid payload with
  | some e => .error e
  | none =>
    let subject := GetSubject payload
    let rendered := RenderEmailTemplate subject payload.TemplateBody payload.Params
    let hs0 : Headers := []
    let hs1 :=
      if payload.Priority ≠ [] then
        hset hs0 (str "X-Priority") (mapPriorityToHeader payload.Priority)
      else hs0
    let hs2 :=
      if payload.NotificationID ≠ [] then
        hset hs1 (str "X-Notification-ID") payload.NotificationID
      else hs1
    let hs3 :=
      match payload.ChannelConfig.lookup (str "headers") with
      | some (.jmap hm) => hm.foldl mergeHeader hs2
      | _ => hs2
    .ok { To := payload.To, Subject := rendered.1, Body := rendered.2,
          MsgHeaders := hs3 }

/-- Character class `[a-zA-Z0-9._%+-]` of the local part of
`emailRegex`. -/
def isLocalChar (c : Char) : Bool :=
  c.isAlpha || c.isDigit || c == '.' || c == '_' || c == '%' || c == '+' || c == '-'

/-- Character class `[a-zA-Z0-9.-]` of the domain part of `emailRegex`. -/
def isDomChar (c : Char) : Bool :=
  c.isAlpha || c.isDigit || c == '.' || c == '-'

/-- Decision procedure for the domain part `[a-zA-Z0-9.-]+\.[a-zA-Z]{2,}$`:
the maximal alphabetic suffix must have length at least two, be preceded by
a dot, and the non-empty remainder before that dot must consist of domain
characters.  (Any anchored match must split at the last dot, since the
final `[a-zA-Z]{2,}` cannot contain a dot.) -/
def domainMatch (d : Str) : Bool :=
  let rd := d.reverse
  let tl := rd.takeWhile (fun c => c.isAlpha)
  (2 ≤ tl.length) &&
    (match rd.drop tl.length with
     | '.' :: d1rev => !d1rev.isEmpty && d1rev.all isDomChar
     | _ => false)

/-- Decision procedure for the anchored `emailRegex`
`^[a-zA-Z0-9._%+-]+@[a-zA-Z0-9.-]+\.[a-zA-Z]{2,}$`: since `@` belongs to
neither character class, a match splits the string at its unique `@`. -/
def matchesEmailRegex (s : Str) : Bool :=
  match s.splitOn '@' with
  | [localPart, domain] =>
      !localPart.isEmpty && localPart.all isLocalChar && domainMatch domain
  | _ => false

/-- Go `strings.TrimSpace`: strip leading and trailing whitespace. -/
def trimSpace (s : Str) : Str :=
  ((s.dropWhile Char.isWhitespace).reverse.dropWhile Char.isWhitespace).reverse

/-- Embeds `utils.ValidateEmail`: empty is an invalid recipient; otherwise
the trimmed address must match `emailRegex`. -/
def ValidateEmail (email : Str) : Option EmailErr :=
  if email = [] then some .invalidRecipient
  else if matchesEmailRegex (trimSpace email) then none
  else some .invalidEmailFormat

/-- Embeds `MessageBuilder.ValidateEmailMessage`: recipient format, then
non-empty subject, then non-empty body. -/
def ValidateEmailMessage (message : EmailMessage) : Option EmailErr :=
  match ValidateEmail message.To with
  | some e => some e
  | none =>
    if message.Subject = [] then some .invalidSubject
    else if message.Body = [] then some .missingContent
    else none

/-- Embeds `NotificationService.ProcessNotification` of the email service,
instrumented with the list of messages handed to the sender: build,
validate the built message, then send.  The SMTP sender
(`emailClient.SendEmail`) is the external collaborator and is a
parameter. -/
def ProcessNotificationT (payload : NotificationPayload)
    (send : EmailMessage → Option EmailErr) :
    Except EmailErr Unit × List EmailMessage :=
  match BuildEmailMessage payload with
  | .error e => (.error e, [])
  | .ok message =>
    match ValidateEmailMessage message with
    | some e => (.error e, [])
    | none =>
      match send message with
      | some e => (.error e, [message])
      | none => (.ok (), [message])

end EmailSvc

/-! ## SMS service -/

namespace SMSSvc

/-- Inbound request of the sms service (its `main` package's
`NotificationPayload`); `channelConfig` and `fallbackChannels` are carried
but read by no embedded code path and are omitted. -/
structure NotificationPayload where
  NotificationId : Str
  MessageType : Str
  To : Str
  TemplateBody : Str
  Params : List (Str × Str)
  Priority : Str
  Locale : Str
deriving DecidableEq

/-- Embeds the sms service's `cleanPhoneNumber`: remove spaces, dashes and
parentheses (dots are not removed), then prepend `+` if missing; no
validation is performed. -/
def cleanPhoneNumber (phone : Str) : Str :=
  WAUtils.withPlus (WAUtils.cleanNoDots phone)

/-- Embeds the sms service's `sendSMS`: delivery is simulated and always
returns `nil`. -/
def sendSMS (toAddr message : Str) : Option Str :=
  let _ := toAddr
  let _ := message
  none

/-- Embeds `handleSMSPayload`, instrumented with the `(recipient, body)`
pairs handed to the sender: clean the phone number, render the template,
send — no validation step exists in this pipeline. -/
def handleSMSPayloadT (payload : NotificationPayload)
    (send : Str → Str → Option Str) : Option Str × List (Str × Str) :=
  let toAddr := cleanPhoneNumber payload.To
  let message := renderTemplateSMS payload.TemplateBody payload.Params
  (send toAddr message, [(toAddr, message)])

/-- `handleSMSPayload` exactly as in the source, with the simulated
sender. -/
def handleSMSPayload (payload : NotificationPayload) : Option Str :=
  (handleSMSPayloadT payload sendSMS).1

end SMSSvc

/-! ## Consumer loops

Each loop iteration is modelled as the list of observable events it
produces, in program order.  A fetched inbound message is represented by
its JSON-decoding outcome: `malformed` carries the notification ID that
`json.Unmarshal` best-effort-populated into the partially decoded struct
before failing, `wellFormed` carries the decoded payload.

The kafka transport calls are modelled after the `segmentio/kafka-go`
reader used by all three services: `FetchMessage` returns a message
without committing it, `CommitMessages` commits it, and `ReadMessage` —
used by the whatsapp and sms consumers — fetches the next message and
commits its offset before returning it to the caller (automatic commit
under a consumer group). -/

/-- Decoding outcome of one fetched inbound queue message. -/
inductive Decoded (α : Type)
  | malformed (partialId : Str)
  | wellFormed (payload : α)
deriving DecidableEq

/-- Observable events of a consumer-loop iteration, in program order:
committing the inbound offset, invoking the processing pipeline
(validator/composer/sender) for a notification ID, and attempting to emit
an acknowledgment record. -/
inductive Event
  | commit
  | invoke (id : Str)
  | ack (id : Str) (status : Str) (details : Str)
deriving DecidableEq

/-- Acknowledgment records attempted in a trace. -/
def acksOf (tr : List Event) : List (Str × Str × Str) :=
  tr.filterMap (fun e =>
    match e with
    | .ack i s d => some (i, s, d)
    | _ => none)

/-- Pipeline invocations in a trace. -/
def invokesOf (tr : List Event) : List Str :=
  tr.filterMap (fun e =>
    match e with
    | .invoke i => some i
    | _ => none)

/-- Helper for `commitOnlyAfterAck`: `seen` records whether an
acknowledgment attempt has occurred yet. -/
def commitOnlyAfterAckAux : List Event → Bool → Bool
  | [], _ => true
  | .commit :: rest, seen => seen && commitOnlyAfterAckAux rest seen
  | .ack _ _ _ :: rest, _ => commitOnlyAfterAckAux rest true
  | .invoke _ :: rest, seen => commitOnlyAfterAckAux rest seen

/-- Every commit in the trace is preceded by at least one acknowledgment
attempt. -/
def commitOnlyAfterAck (tr : List Event) : Bool :=
  commitOnlyAfterAckAux tr false

namespace EmailSvc

/-- One iteration of the email service's consumer loop
(`KafkaService.StartConsumer` around `processMessage`), given the decoding
outcome of the fetched message and the processor
(`NotificationService.ProcessNotification`, abstracted to the error message
it returns, as only `err.Error()` reaches the acknowledgment): malformed
JSON is acknowledged as FAILURE `"Invalid JSON payload"` without invoking
the processor; otherwise one ack reflecting the processor outcome.  The
offset is committed after `processMessage` returns, whether or not it
returned an error. -/
def loopIteration (d : Decoded NotificationPayload)
    (proc : NotificationPayload → Option Str) : List Event :=
  match d with
  | .malformed partialId =>
      [.ack partialId (str "FAILURE") (str "Invalid JSON payload"), .commit]
  | .wellFormed p =>
      match proc p with
      | some e =>
          [.invoke p.NotificationID,
           .ack p.NotificationID (str "FAILURE") e, .commit]
      | none =>
          [.invoke p.NotificationID,
           .ack p.NotificationID (str "SUCCESS") (str "Email sent successfully"),
           .commit]

/-- The email consumer loop over a list of fetched messages: each message
is fully processed before the next is fetched, and the loop continues after
every outcome. -/
def loop (msgs : List (Decoded NotificationPayload))
    (proc : NotificationPayload → Option Str) : List Event :=
  match msgs with
  | [] => []
  | d :: rest => loopIteration d proc ++ loop rest proc

end EmailSvc

namespace WASvc

/-- One iteration of the whatsapp service's consumer loop
(`kafka.Consumer.Start`): `ReadMessage` commits the offset on fetch; a
message that fails JSON decoding is logged and skipped with no
acknowledgment; a decoded message is handed to the handler, whose error is
only logged — this loop emits no acknowledgments at all. -/
def loopIteration (d : Decoded NotificationPayload)
    (handler : NotificationPayload → Option Str) : List Event :=
  Event.commit ::
    match d with
    | .malformed _ => []
    | .wellFormed p =>
        match handler p with
        | _ => [.invoke p.NotificationID]

/-- The whatsapp consumer loop over a list of fetched messages. -/
def loop (msgs : List (Decoded NotificationPayload))
    (handler : NotificationPayload → Option Str) : List Event :=
  match msgs with
  | [] => []
  | d :: rest => loopIteration d handler ++ loop rest handler

end WASvc

namespace SMSSvc

/-- One iteration of the sms service's consumer loop (`consumeSMSTopic`):
`ReadMessage` commits the offset on fetch; a message that fails JSON
decoding is logged and skipped with no acknowledgment; otherwise
`handleSMSPayload` runs (phone cleanup, render, send — the sms-provider
call is the abstract `send` parameter) and exactly one acknowledgment is
produced from its outcome. -/
def loopIteration (d : Decoded NotificationPayload)
    (send : Str → Str → Option Str) : List Event :=
  Event.commit ::
    match d with
    | .malformed _ => []
    | .wellFormed p =>
        let toAddr := cleanPhoneNumber p.To
        let message := renderTemplateSMS p.TemplateBody p.Params
        match send toAddr message with
        | some e =>
            [.invoke p.NotificationId,
             .ack p.NotificationId (str "FAILURE") (str "Failed to send SMS: " ++ e)]
        | none =>
            [.invoke p.NotificationId,
             .ack p.NotificationId (str "SUCCESS") (str "SMS sent successfully")]

/-- The sms consumer loop over a list of fetched messages. -/
def loop (msgs : List (Decoded NotificationPayload))
    (send : Str → Str → Option Str) : List Event :=
  match msgs with
  | [] => []
  | d :: rest => loopIteration d send ++ loop rest send

end SMSSvc

/-! ## Helpers and concrete fixtures for the claim theorems -/

/-- Whether an `Except` value is a success. -/
def isOkE {ε α : Type} : Except ε α → Bool
  | .ok _ => true
  | .error _ => false

/-- Rendering with an empty parameter map returns the template
unchanged. -/
theorem renderTemplate_params_nil (t : Str) : RenderTemplate t [] = t := by
  by_cases h : t = []
  · subst h; rfl
  · simp [RenderTemplate, h]

/-- Header lookup through a built email message, `none` on a build
error. -/
def headerProbe (r : Except EmailSvc.EmailErr EmailSvc.EmailMessage)
    (k : Str) : Option Str :=
  match r with
  | .ok m => EmailSvc.hget m.MsgHeaders k
  | .error _ => none

/-- The custom-header map of the channel configuration contains no
`X-Priority` entry (trivially true when no header map is configured). -/
def headersConfigNoXPriority (pl : EmailSvc.NotificationPayload) : Bool :=
  match pl.ChannelConfig.lookup (str "headers") with
  | some (.jmap hm) => hm.all (fun kv => !(kv.1 == str "X-Priority"))
  | _ => true

/-- Folding the custom-header merge over entries whose keys all differ
from `key` leaves lookups of `key` unchanged. -/
theorem hget_mergeHeader_foldl (key : Str) :
    ∀ (hm : List (Str × EmailSvc.JLeaf)) (acc : EmailSvc.Headers),
      hm.all (fun kv => !(kv.1 == key)) = true →
      EmailSvc.hget (hm.foldl EmailSvc.mergeHeader acc) key
        = EmailSvc.hget acc key := by
  intro hm
  induction hm with
  | nil => intro acc _; rfl
  | cons kv rest ih =>
    intro acc hall
    rw [List.all_cons, Bool.and_eq_true] at hall
    have h1 : (kv.1 == key) = false := by
      cases hb : (kv.1 == key) with
      | false => rfl
      | true =>
        have := hall.1
        rw [hb] at this
        exact absurd this (by decide)
    have hne : key ≠ kv.1 := by
      intro hc
      rw [hc, beq_self_eq_true] at h1
      exact absurd h1 (by decide)
    rw [List.foldl_cons, ih (EmailSvc.mergeHeader acc kv) hall.2]
    cases hv : kv.2 with
    | jstr s =>
      simp only [EmailSvc.mergeHeader, hv]
      exact EmailSvc.hget_hset_ne _ _ _ _ hne
    | jother => simp only [EmailSvc.mergeHeader, hv]

/-- Fixture: an sms request whose fields are populated except as noted. -/
def fxSms : SMSSvc.NotificationPayload :=
  { NotificationId := str "n1", MessageType := str "sms", To := str "123",
    TemplateBody := str "hi", Params := [], Priority := str "low",
    Locale := str "en" }

/-- Fixture: an sms request with an empty recipient. -/
def fxSmsEmptyTo : SMSSvc.NotificationPayload :=
  { fxSms with To := [] }

/-! ## Claim C1 -/

/-- C1 counterexample: the whatsapp service's consumer loop, fed a message
whose body fails JSON deserialization, produces only the fetch-time offset
commit — no FAILURE acknowledgment at all — refuting the claim that every
consumer loop emits exactly one FAILURE acknowledgment with details
`"Invalid JSON payload"` for such a message. -/
theorem c1_counterexample :
    WASvc.loopIteration (Decoded.malformed (str "n1")) (fun _ => none)
        = [Event.commit]
      ∧ acksOf (WASvc.loopIteration (Decoded.malformed (str "n1"))
          (fun _ => none)) = [] := by
  constructor <;> rfl

/-- C1 (amended): only the email service's consumer loop acknowledges a
malformed inbound message — exactly one FAILURE record with details
`"Invalid JSON payload"` under the best-effort-extracted notification ID,
with no validator/composer/sender invocation, followed by the offset
commit; the whatsapp and sms consumer loops skip a malformed message with
no acknowledgment and no pipeline invocation; in all three services the
loop proceeds to the remaining messages. -/
theorem c1_malformed_handling :
    (∀ pid proc,
        EmailSvc.loopIteration (Decoded.malformed pid) proc
          = [Event.ack pid (str "FAILURE") (str "Invalid JSON payload"),
             Event.commit]
          ∧ invokesOf (EmailSvc.loopIteration (Decoded.malformed pid) proc) = [])
    ∧ (∀ pid handler,
        acksOf (WASvc.loopIteration (Decoded.malformed pid) handler) = []
          ∧ invokesOf (WASvc.loopIteration (Decoded.malformed pid) handler) = [])
    ∧ (∀ pid send,
        acksOf (SMSSvc.loopIteration (Decoded.malformed pid) send) = []
          ∧ invokesOf (SMSSvc.loopIteration (Decoded.malformed pid) send) = [])
    ∧ (∀ pid rest proc,
        EmailSvc.loop (Decoded.malformed pid :: rest) proc
          = EmailSvc.loopIteration (Decoded.malformed pid) proc
              ++ EmailSvc.loop rest proc)
    ∧ (∀ pid rest handler,
        WASvc.loop (Decoded.malformed pid :: rest) handler
          = WASvc.loopIteration (Decoded.malformed pid) handler
              ++ WASvc.loop rest handler)
    ∧ (∀ pid rest send,
        SMSSvc.loop (Decoded.malformed pid :: rest) send
          = SMSSvc.loopIteration (Decoded.malformed pid) send
              ++ SMSSvc.loop rest send) := by
  refine ⟨fun pid proc => ⟨rfl, rfl⟩, fun pid handler => ⟨rfl, rfl⟩,
    fun pid send => ⟨rfl, rfl⟩, fun pid rest proc => rfl,
    fun pid rest handler => rfl, fun pid rest send => rfl⟩

/-! ## Claim C2 -/

/-- C2 (confirmed): for every inbound message the email and sms consumer
loops successfully deserialize, exactly one acknowledgment record is
emitted — SUCCESS when the processing/sender call succeeded, FAILURE
carrying the failing stage's error message otherwise — with the
acknowledgment's notification ID equal to the inbound request's; the
pipeline is invoked exactly once (no retry) and the loop continues with the
remaining messages. -/
theorem c2_exactly_one_ack :
    (∀ (p : EmailSvc.NotificationPayload) proc,
        acksOf (EmailSvc.loopIteration (Decoded.wellFormed p) proc)
          = [(p.NotificationID,
              match proc p with
              | none => (str "SUCCESS", str "Email sent successfully")
              | some e => (str "FAILURE", e))]
          ∧ invokesOf (EmailSvc.loopIteration (Decoded.wellFormed p) proc)
              = [p.NotificationID])
    ∧ (∀ (p : SMSSvc.NotificationPayload) send,
        acksOf (SMSSvc.loopIteration (Decoded.wellFormed p) send)
          = [(p.NotificationId,
              match send (SMSSvc.cleanPhoneNumber p.To)
                  (renderTemplateSMS p.TemplateBody p.Params) with
              | none => (str "SUCCESS", str "SMS sent successfully")
              | some e => (str "FAILURE", str "Failed to send SMS: " ++ e))]
          ∧ invokesOf (SMSSvc.loopIteration (Decoded.wellFormed p) send)
              = [p.NotificationId])
    ∧ (∀ d rest proc,
        EmailSvc.loop (d :: rest) proc
          = EmailSvc.loopIteration d proc ++ EmailSvc.loop rest proc)
    ∧ (∀ d rest send,
        SMSSvc.loop (d :: rest) send
          = SMSSvc.loopIteration d send ++ SMSSvc.loop rest send) := by
  refine ⟨fun p proc => ?_, fun p send => ?_,
    fun d rest proc => rfl, fun d rest send => rfl⟩
  · cases hp : proc p <;>
      simp [EmailSvc.loopIteration, acksOf, invokesOf, hp]
  · cases hs : send (SMSSvc.cleanPhoneNumber p.To)
        (renderTemplateSMS p.TemplateBody p.Params) <;>
      simp [SMSSvc.loopIteration, acksOf, invokesOf, hs]

/-! ## Claim C3 -/

/-- C3 counterexample: in the sms service's consumer loop the offset commit
(performed by `ReadMessage` at fetch time) precedes the acknowledgment
attempt for the message, refuting the claim that in every consumer-loop
iteration the offset is committed only after the acknowledgment emission
has been attempted. -/
theorem c3_counterexample :
    commitOnlyAfterAck
        (SMSSvc.loopIteration (Decoded.wellFormed fxSms) (fun _ _ => none))
      = false := by
  decide

/-- C3 (amended): the email service's consumer loop commits a message's
offset only after the acknowledgment emission attempt for that message,
and commits exactly once regardless of the processing or emission outcome;
the whatsapp and sms consumer loops instead commit the offset at fetch
time — before any processing or acknowledgment attempt — because they read
through the transport's auto-committing `ReadMessage`. -/
theorem c3_commit_order :
    (∀ d proc, commitOnlyAfterAck (EmailSvc.loopIteration d proc) = true)
    ∧ (∀ d proc,
        (EmailSvc.loopIteration d proc).count Event.commit = 1)
    ∧ (∀ d handler,
        (WASvc.loopIteration d handler).head? = some Event.commit)
    ∧ (∀ d send,
        (SMSSvc.loopIteration d send).head? = some Event.commit) := by
  refine ⟨fun d proc => ?_, fun d proc => ?_, fun d handler => ?_,
    fun d send => ?_⟩
  · cases d with
    | malformed pid => rfl
    | wellFormed p =>
      cases hp : proc p <;>
        simp [EmailSvc.loopIteration, hp, commitOnlyAfterAck,
          commitOnlyAfterAckAux]
  · cases d with
    | malformed pid => rfl
    | wellFormed p =>
      cases hp : proc p <;>
        simp [EmailSvc.loopIteration, hp, List.count_cons]
  · cases d <;> rfl
  · cases d with
    | malformed pid => rfl
    | wellFormed p =>
      cases hs : send (SMSSvc.cleanPhoneNumber p.To)
          (renderTemplateSMS p.TemplateBody p.Params) <;>
        simp [SMSSvc.loopIteration, hs]

/-! ## Claim C4 -/

/-- C4 counterexample: with template `"{a}"` and parameters
`a ↦ "{b}", b ↦ "X"` (in that iteration order) the renderer produces
`"X"` — the text substituted for `{a}` was re-scanned and re-substituted by
the later pass for `b` — while replacing every `{a}` occurrence by `P[a]`
and leaving everything else verbatim would produce `"{b}"`. -/
theorem c4_counterexample :
    RenderTemplate (str "{a}") [(str "a", str "{b}"), (str "b", str "X")]
        = str "X"
      ∧ specSubst [(str "a", str "{b}"), (str "b", str "X")] (str "{a}")
        = str "{b}"
      ∧ RenderTemplate (str "{a}") [(str "a", str "{b}"), (str "b", str "X")]
        ≠ specSubst [(str "a", str "{b}"), (str "b", str "X")] (str "{a}") := by
  refine ⟨by decide, by decide, by decide⟩

/-- C4 (amended): rendering folds the parameter entries sequentially in
map-iteration order, each pass replacing every occurrence of the entry's
placeholder in the current intermediate string — so text substituted by
earlier entries is re-scanned by later ones; for a single-entry parameter
map the result is exactly the one-pass simultaneous substitution (every
`{k}` occurrence replaced by the value, unmatched placeholders left
verbatim, no error); the empty template renders to the empty string, and
an empty parameter map returns the template unchanged. -/
theorem c4_render_contract :
    (∀ ps, RenderTemplate [] ps = [])
    ∧ (∀ t, RenderTemplate t [] = t)
    ∧ (∀ t k v, RenderTemplate t [(k, v)] = specSubst [(k, v)] t)
    ∧ (∀ t k v ps, RenderTemplate t ((k, v) :: ps)
        = RenderTemplate (replaceAll t (placeholder k) v) ps) := by
  refine ⟨fun ps => rfl, renderTemplate_params_nil, fun t k v => ?_,
    fun t k v ps => RenderTemplate_cons t k v ps⟩
  by_cases h : t = []
  · subst h; rfl
  · simp only [RenderTemplate, if_neg h, List.foldl_cons, List.foldl_nil,
      renderStep, replaceAll, specSubst]
    exact replaceAllF_eq_specSubstF k v _ t

/-! ## Claim C5 -/

/-- C5 counterexample: with template `"{a}"` and parameters
`a ↦ "{b}", b ↦ "X"` (in that iteration order), the `"{b}"` introduced by
substituting `{a}` does not remain in the output — the output is `"X"` and
contains no occurrence of `"{b}"` — refuting the claim that a substituted
value is never re-scanned for further placeholders. -/
theorem c5_counterexample :
    RenderTemplate (str "{a}") [(str "a", str "{b}"), (str "b", str "X")]
        = str "X"
      ∧ containsSub
          (RenderTemplate (str "{a}") [(str "a", str "{b}"), (str "b", str "X")])
          (str "{b}") = false := by
  refine ⟨by decide, by decide⟩

/-- C5 (amended): a value substituted for one placeholder IS re-scanned by
the passes of parameter entries processed later in map-iteration order:
with template `"{a}"` and `P[a] = "{b}"`, the introduced `"{b}"` is
replaced by `P[b]` whenever `b`'s entry is processed after `a`'s, and
remains literally in the output only when `b`'s entry was processed
first. -/
theorem c5_resubstitution_order :
    ∀ vb : Str,
      RenderTemplate (str "{a}") [(str "a", str "{b}"), (str "b", vb)] = vb
      ∧ RenderTemplate (str "{a}") [(str "b", vb), (str "a", str "{b}")]
          = str "{b}" := by
  intro vb
  have h2 : replaceAll (str "{b}") (placeholder (str "b")) vb = vb := by
    have h : replaceAll (str "{b}") (placeholder (str "b")) vb = vb ++ [] := rfl
    rw [h, List.append_nil]
  have h3 : replaceAll (str "{a}") (placeholder (str "b")) vb = str "{a}" := rfl
  constructor
  · rw [RenderTemplate_cons,
      show replaceAll (str "{a}") (placeholder (str "a")) (str "{b}")
          = str "{b}" by decide,
      RenderTemplate_cons, h2, renderTemplate_params_nil]
  · rw [RenderTemplate_cons, h3]
    decide

/-! ## Claim C6 -/

/-- C6 counterexample: the sms pipeline (`handleSMSPayload`) performs no
validation — a request with empty recipient is not rejected: the sender is
invoked with the cleaned recipient `"+"` and the pipeline reports success,
refuting the claim that the stated validation runs in every channel's
pipeline and that a request with empty `to` never reaches the sender. -/
theorem c6_counterexample :
    (SMSSvc.handleSMSPayloadT fxSmsEmptyTo SMSSvc.sendSMS).2
        = [(str "+", str "hi")]
      ∧ (SMSSvc.handleSMSPayloadT fxSmsEmptyTo SMSSvc.sendSMS).1 = none := by
  refine ⟨by decide, by decide⟩

/-- C6 (amended): the whatsapp and email validators fail fast in the order
identifier → recipient → content (chat content: both template body and
template name empty; email: template body empty), and in those two
pipelines a request with an empty recipient fails before any message is
built or handed to the sender; the sms pipeline performs no validation at
all — every request, an empty recipient included, proceeds to the sender
with the cleanup output of its recipient. -/
theorem c6_validation :
    (∀ n : WASvc.NotificationPayload,
        (n.NotificationID = [] →
          WASvc.IsValid n = some .invalidNotificationID)
        ∧ (n.NotificationID ≠ [] → n.To = [] →
          WASvc.IsValid n = some .invalidRecipient)
        ∧ (n.NotificationID ≠ [] → n.To ≠ [] → n.TemplateBody = [] →
            n.TemplateName = [] →
          WASvc.IsValid n = some .missingContent))
    ∧ (∀ n : EmailSvc.NotificationPayload,
        (n.NotificationID = [] →
          EmailSvc.IsValid n = some .invalidNotificationID)
        ∧ (n.NotificationID ≠ [] → n.To = [] →
          EmailSvc.IsValid n = some .invalidRecipient)
        ∧ (n.NotificationID ≠ [] → n.To ≠ [] → n.TemplateBody = [] →
          EmailSvc.IsValid n = some .missingContent))
    ∧ (∀ (n : WASvc.NotificationPayload) send, n.To = [] →
        (WASvc.processNotificationT n send).2 = []
          ∧ isOkE (WASvc.processNotificationT n send).1 = false)
    ∧ (∀ (n : EmailSvc.NotificationPayload) send, n.To = [] →
        (EmailSvc.ProcessNotificationT n send).2 = []
          ∧ isOkE (EmailSvc.ProcessNotificationT n send).1 = false)
    ∧ (∀ (n : SMSSvc.NotificationPayload) send,
        (SMSSvc.handleSMSPayloadT n send).2
          = [(SMSSvc.cleanPhoneNumber n.To,
              renderTemplateSMS n.TemplateBody n.Params)]) := by
  refine ⟨fun n => ⟨fun h1 => ?_, fun h1 h2 => ?_, fun h1 h2 h3 h4 => ?_⟩,
    fun n => ⟨fun h1 => ?_, fun h1 h2 => ?_, fun h1 h2 h3 => ?_⟩,
    fun n send hTo => ?_, fun n send hTo => ?_, fun n send => rfl⟩
  · simp [WASvc.IsValid, h1]
  · simp [WASvc.IsValid, h1, h2]
  · simp [WASvc.IsValid, h1, h2, h3, h4]
  · simp [EmailSvc.IsValid, h1]
  · simp [EmailSvc.IsValid, h1, h2]
  · simp [EmailSvc.IsValid, h1, h2, h3]
  · by_cases hid : n.NotificationID = []
    · simp [WASvc.processNotificationT, WASvc.IsValid, hid, isOkE]
    · simp [WASvc.processNotificationT, WASvc.IsValid, hid, hTo, isOkE]
  · by_cases hid : n.NotificationID = []
    · simp [EmailSvc.ProcessNotificationT, EmailSvc.BuildEmailMessage,
        EmailSvc.IsValid, hid, isOkE]
    · simp [EmailSvc.ProcessNotificationT, EmailSvc.BuildEmailMessage,
        EmailSvc.IsValid, hid, hTo, isOkE]

/-- Fixture: a whatsapp request with all fields populated for the text
path. -/
def fxWaText : WASvc.NotificationPayload :=
  { NotificationID := str "n1", MessageType := str "chat",
    To := str "+12345", TemplateBody := str "hi", Params := [],
    Priority := str "low", Locale := str "en", MediaURL := [],
    MediaType := [], TemplateName := [] }

/-- Fixture: a whatsapp request with an empty recipient. -/
def fxWaEmptyTo : WASvc.NotificationPayload :=
  { fxWaText with To := [] }

/-- Fixture: an email request with all fields populated and priority
`high`. -/
def fxEmailHigh : EmailSvc.NotificationPayload :=
  { NotificationID := str "n1", MessageType := str "email",
    To := str "a@b.co", TemplateBody := str "hi", Params := [],
    ChannelConfig := [], Priority := str "high", Locale := str "en" }

/-- Fixture: an email request with an empty recipient. -/
def fxEmailEmptyTo : EmailSvc.NotificationPayload :=
  { fxEmailHigh with To := [] }

/-- C6 witness: the amended validation facts evaluated at concrete
requests with empty recipients. -/
theorem c6_validation_witness :
    WASvc.IsValid fxWaEmptyTo = some .invalidRecipient
      ∧ (WASvc.processNotificationT fxWaEmptyTo (fun _ => .ok ())).2 = []
      ∧ (EmailSvc.ProcessNotificationT fxEmailEmptyTo (fun _ => none)).2 = []
      ∧ (SMSSvc.handleSMSPayloadT fxSmsEmptyTo (fun _ _ => none)).2
          = [(str "+", str "hi")] := by
  obtain ⟨hwa, _hemail, hwaPipe, hemailPipe, hsms⟩ := c6_validation
  refine ⟨(hwa fxWaEmptyTo).2.1 (by decide) rfl,
    (hwaPipe fxWaEmptyTo (fun _ => .ok ()) rfl).1,
    (hemailPipe fxEmailEmptyTo (fun _ => none) rfl).1, ?_⟩
  rw [hsms fxSmsEmptyTo (fun _ _ => none)]
  decide

/-! ## Claim C7 -/

/-- Fixture: a whatsapp request with both a media URL and a template name
set. -/
def fxWaMedia : WASvc.NotificationPayload :=
  { fxWaText with
      MediaURL := str "http://x/img"
      MediaType := str "image"
      TemplateName := str "tpl" }

/-- Fixture: a whatsapp request with a template name and no media URL. -/
def fxWaTemplate : WASvc.NotificationPayload :=
  { fxWaText with
      TemplateName := str "tpl"
      TemplateBody := [] }

/-- Fixture: a whatsapp request with no media URL, no template name and no
content at all. -/
def fxWaNoContent : WASvc.NotificationPayload :=
  { fxWaText with TemplateBody := [] }

/-- A build result whose message populates exactly a media shape. -/
def mediaShaped (r : Except WASvc.WAErr WASvc.WhatsAppMessage) : Bool :=
  match r with
  | .ok m => WASvc.isMediaVariant m && m.Template.isNone && m.Text.isNone
  | .error _ => false

/-- A build result whose message populates exactly the template shape. -/
def templateShaped (r : Except WASvc.WAErr WASvc.WhatsAppMessage) : Bool :=
  match r with
  | .ok m => m.Template.isSome && !WASvc.isMediaVariant m && m.Text.isNone
  | .error _ => false

/-- A build result whose message populates exactly the text shape. -/
def textShaped (r : Except WASvc.WAErr WASvc.WhatsAppMessage) : Bool :=
  match r with
  | .ok m => m.Text.isSome && !WASvc.isMediaVariant m && m.Template.isNone
  | .error _ => false

/-- C7 counterexample: a chat request with empty media URL, empty template
name and empty template body does not compose to a Text variant — the
composer fails with `MissingContent` — refuting the claim's clause that in
the absence of media URL and template name the Text variant is produced. -/
theorem c7_counterexample :
    WASvc.BuildMessage fxWaNoContent (str "+12345")
        = Except.error WASvc.WAErr.missingContent
      ∧ textShaped (WASvc.BuildMessage fxWaNoContent (str "+12345")) = false := by
  refine ⟨by decide, by decide⟩

/-- C7 (amended): the chat composer selects the shape by priority of
populated fields — a non-empty media URL always yields the Media variant
(even when a template name is also set); otherwise a non-empty template
name yields the Template variant; otherwise the Text variant is produced
when the rendered body is non-empty, and composition fails with
`MissingContent` when the rendered body is empty. -/
theorem c7_shape_priority :
    (∀ (pl : WASvc.NotificationPayload) (toA : Str), pl.MediaURL ≠ [] →
        WASvc.BuildMessage pl toA = WASvc.buildMediaMessage toA pl
          ∧ mediaShaped (WASvc.BuildMessage pl toA) = true)
    ∧ (∀ (pl : WASvc.NotificationPayload) (toA : Str), pl.MediaURL = [] →
        pl.TemplateName ≠ [] →
        templateShaped (WASvc.BuildMessage pl toA) = true)
    ∧ (∀ (pl : WASvc.NotificationPayload) (toA : Str), pl.MediaURL = [] →
        pl.TemplateName = [] →
        (RenderTemplate pl.TemplateBody pl.Params ≠ [] →
          textShaped (WASvc.BuildMessage pl toA) = true)
        ∧ (RenderTemplate pl.TemplateBody pl.Params = [] →
          WASvc.BuildMessage pl toA
            = Except.error WASvc.WAErr.missingContent)) := by
  refine ⟨fun pl toA h => ⟨by simp [WASvc.BuildMessage, h], ?_⟩,
    fun pl toA h1 h2 => ?_, fun pl toA h1 h2 => ⟨fun h3 => ?_, fun h3 => ?_⟩⟩
  · simp only [WASvc.BuildMessage, if_pos h, WASvc.buildMediaMessage,
      if_neg h]
    split
    · simp [mediaShaped, WASvc.isMediaVariant]
    · split
      · simp [mediaShaped, WASvc.isMediaVariant]
      · split
        · simp [mediaShaped, WASvc.isMediaVariant]
        · split
          · simp [mediaShaped, WASvc.isMediaVariant]
          · simp [mediaShaped, WASvc.isMediaVariant]
  · simp [WASvc.BuildMessage, h1, h2, WASvc.buildTemplateMessage,
      templateShaped, WASvc.isMediaVariant]
  · simp [WASvc.BuildMessage, h1, h2, WASvc.buildTextMessage, h3,
      textShaped, WASvc.isMediaVariant]
  · simp [WASvc.BuildMessage, h1, h2, WASvc.buildTextMessage, h3]

/-- C7 witness: the amended shape-priority facts evaluated at concrete
requests — a request carrying both a media URL and a template name
composes to the Media shape, a template-only request to the Template
shape, and a plain request with non-empty rendered body to the Text
shape. -/
theorem c7_shape_priority_witness :
    mediaShaped (WASvc.BuildMessage fxWaMedia (str "+12345")) = true
      ∧ templateShaped (WASvc.BuildMessage fxWaTemplate (str "+12345")) = true
      ∧ textShaped (WASvc.BuildMessage fxWaText (str "+12345")) = true := by
  obtain ⟨hm, ht, hx⟩ := c7_shape_priority
  exact ⟨(hm fxWaMedia (str "+12345") (by decide)).2,
    ht fxWaTemplate (str "+12345") (by decide) (by decide),
    (hx fxWaText (str "+12345") (by decide) (by decide)).1 (by decide)⟩

/-! ## Claim C8 -/

/-- Fixture: a valid email request whose priority string is empty. -/
def fxEmailNoPriority : EmailSvc.NotificationPayload :=
  { fxEmailHigh with Priority := [] }

/-- C8 counterexample: a valid email request with an empty priority string
composes successfully but its message carries no `X-Priority` header at
all (the builder only sets the header when the priority is non-empty),
refuting the claim that the empty string results in the composed message
carrying `"3 (Normal)"` as its `X-Priority` value. -/
theorem c8_counterexample :
    isOkE (EmailSvc.BuildEmailMessage fxEmailNoPriority) = true
      ∧ headerProbe (EmailSvc.BuildEmailMessage fxEmailNoPriority)
          (str "X-Priority") = none := by
  refine ⟨by decide, by decide⟩

/-- C8 (amended): `mapPriorityToHeader` is total — `urgent`, `high`,
`medium`, `low` map to their stated header values and every other priority
string (the empty string and `"unknown"` included) maps to
`"3 (Normal)"` — but the composed message carries an `X-Priority` header
only when the request's priority string is non-empty (given that no custom
`channelConfig` header overrides it); with an empty priority string the
composed message has no `X-Priority` header. -/
theorem c8_priority_header :
    (EmailSvc.mapPriorityToHeader EmailSvc.PriorityUrgent = str "1 (Highest)"
      ∧ EmailSvc.mapPriorityToHeader EmailSvc.PriorityHigh = str "2 (High)"
      ∧ EmailSvc.mapPriorityToHeader EmailSvc.PriorityMedium = str "3 (Normal)"
      ∧ EmailSvc.mapPriorityToHeader EmailSvc.PriorityLow = str "4 (Low)")
    ∧ (∀ p : Str, p ≠ EmailSvc.PriorityUrgent → p ≠ EmailSvc.PriorityHigh →
        p ≠ EmailSvc.PriorityMedium → p ≠ EmailSvc.PriorityLow →
        EmailSvc.mapPriorityToHeader p = str "3 (Normal)")
    ∧ (∀ pl : EmailSvc.NotificationPayload, EmailSvc.IsValid pl = none →
        headersConfigNoXPriority pl = true →
        headerProbe (EmailSvc.BuildEmailMessage pl) (str "X-Priority")
          = (if pl.Priority = [] then none
             else some (EmailSvc.mapPriorityToHeader pl.Priority))) := by
  refine ⟨⟨by decide, by decide, by decide, by decide⟩,
    fun p h1 h2 h3 h4 => by simp [EmailSvc.mapPriorityToHeader, h1, h2, h3, h4],
    fun pl hval hcfg => ?_⟩
  have hskip : ∀ (m : EmailSvc.Headers) (idv : Str),
      EmailSvc.hget (EmailSvc.hset m (str "X-Notification-ID") idv)
          (str "X-Priority")
        = EmailSvc.hget m (str "X-Priority") :=
    fun m idv => EmailSvc.hget_hset_ne m _ idv _ (by decide)
  have hnil : EmailSvc.hget ([] : EmailSvc.Headers) (str "X-Priority") = none :=
    rfl
  have hs2 : ∀ hs2v : EmailSvc.Headers,
      hs2v = (if pl.NotificationID ≠ [] then
          EmailSvc.hset
            (if pl.Priority ≠ [] then
              EmailSvc.hset [] (str "X-Priority")
                (EmailSvc.mapPriorityToHeader pl.Priority)
            else [])
            (str "X-Notification-ID") pl.NotificationID
        else
          (if pl.Priority ≠ [] then
            EmailSvc.hset [] (str "X-Priority")
              (EmailSvc.mapPriorityToHeader pl.Priority)
          else [])) →
      EmailSvc.hget hs2v (str "X-Priority")
        = (if pl.Priority = [] then none
           else some (EmailSvc.mapPriorityToHeader pl.Priority)) := by
    intro hs2v hdef
    subst hdef
    by_cases hid : pl.NotificationID = [] <;> by_cases hpr : pl.Priority = [] <;>
      simp [hid, hpr, hskip, hnil, EmailSvc.hget_hset_self]
  unfold headersConfigNoXPriority at hcfg
  simp only [EmailSvc.BuildEmailMessage, hval, headerProbe]
  cases hl : pl.ChannelConfig.lookup (str "headers") with
  | none =>
    simp only [hl]
    exact hs2 _ rfl
  | some v =>
    cases v with
    | jstr s => simp only [hl]; exact hs2 _ rfl
    | jother => simp only [hl]; exact hs2 _ rfl
    | jmap hm =>
      rw [hl] at hcfg
      simp only [hl]
      rw [hget_mergeHeader_foldl (str "X-Priority") hm _ hcfg]
      exact hs2 _ rfl

/-- C8 witness: the amended mapping facts evaluated at concrete inputs —
an unrecognized priority string maps to the default header value, and a
valid request with priority `high` composes with `X-Priority` set to
`"2 (High)"`. -/
theorem c8_priority_header_witness :
    EmailSvc.mapPriorityToHeader (str "unknown") = str "3 (Normal)"
      ∧ headerProbe (EmailSvc.BuildEmailMessage fxEmailHigh)
          (str "X-Priority") = some (str "2 (High)") := by
  obtain ⟨_hmaps, hdefault, hmsg⟩ := c8_priority_header
  refine ⟨hdefault (str "unknown") (by decide) (by decide) (by decide)
    (by decide), ?_⟩
  have h := hmsg fxEmailHigh (by decide) (by decide)
  rw [h]
  decide

/-! ## Claim C9 -/

/-- C9 counterexample: the sms service's phone cleanup does not remove
dots — `"1.23"` cleans to `"+1.23"`, not to the `"+123"` that removing all
dots would give — refuting the claim that recipient cleanup removes dots in
every channel that normalizes phone recipients. -/
theorem c9_counterexample :
    SMSSvc.cleanPhoneNumber (str "1.23") = str "+1.23"
      ∧ str "+1.23" ≠ str "+123" := by
  refine ⟨by decide, by decide⟩

/-- C9 (amended): the chat service's cleanup removes every space, dash,
parenthesis and dot; the sms service's cleanup removes every space, dash
and parenthesis but keeps dots; both prepend `+` exactly when the cleaned
string does not already start with it; `"(123) 456-7890"` cleans to
`"+1234567890"` and `"+1234567890"` is returned unchanged in both channels
(the chat version additionally validates the result against its phone
regex before returning it). -/
theorem c9_phone_cleanup :
    (∀ p : Str, WAUtils.cleanCore p = p.filter WAUtils.keepCharWA)
    ∧ (∀ p : Str, SMSSvc.cleanPhoneNumber p
        = WAUtils.withPlus (p.filter WAUtils.keepCharSMS))
    ∧ (∀ s : Str, startsWith s ['+'] = true → WAUtils.withPlus s = s)
    ∧ (∀ s : Str, startsWith s ['+'] = false → WAUtils.withPlus s = '+' :: s)
    ∧ (WAUtils.CleanPhoneNumber (str "(123) 456-7890")
        = Except.ok (str "+1234567890")
      ∧ WAUtils.CleanPhoneNumber (str "+1234567890")
        = Except.ok (str "+1234567890")
      ∧ SMSSvc.cleanPhoneNumber (str "(123) 456-7890") = str "+1234567890"
      ∧ SMSSvc.cleanPhoneNumber (str "+1234567890") = str "+1234567890") := by
  refine ⟨WAUtils.cleanCore_eq_filter, fun p => ?_, fun s h => ?_,
    fun s h => ?_,
    by decide, by decide, by decide, by decide⟩
  · simp only [SMSSvc.cleanPhoneNumber, WAUtils.cleanNoDots_eq_filter]
  · simp [WAUtils.withPlus, h]
  · simp [WAUtils.withPlus, h]

/-- C9 witness: the plus-prepending clauses of the amended claim evaluated
at concrete strings. -/
theorem c9_phone_cleanup_witness :
    WAUtils.withPlus (str "+12") = str "+12"
      ∧ WAUtils.withPlus (str "12") = str "+12" := by
  obtain ⟨_h1, _h2, h3, h4, _⟩ := c9_phone_cleanup
  exact ⟨h3 (str "+12") (by decide), h4 (str "12") (by decide)⟩

/-! ## Claim C10 -/

/-- Fixture: a whatsapp request whose recipient cleans to a number with a
leading zero after the `+`. -/
def fxWaLeadZero : WASvc.NotificationPayload :=
  { fxWaText with To := str "0123" }

/-- C10 (confirmed): the chat service's `CleanPhoneNumber` returns the
cleaned number exactly when that cleaned string matches the pattern
`^\+[1-9]\d{1,14}$`, and otherwise returns the invalid-phone-number error
(the empty input is rejected by the same criterion since it cleans to
`"+"`, which the pattern refuses); consequently `ProcessNotification`
fails without building or sending any message whenever the cleaned
recipient fails that pattern. -/
theorem c10_phone_validation :
    (∀ phone : Str,
        WAUtils.CleanPhoneNumber phone
          = (if WAUtils.matchesPhoneRegex
                (WAUtils.withPlus (WAUtils.cleanCore phone))
             then Except.ok (WAUtils.withPlus (WAUtils.cleanCore phone))
             else Except.error WAUtils.PhoneErr.invalidPhoneNumber))
    ∧ (∀ (pl : WASvc.NotificationPayload) send,
        WAUtils.matchesPhoneRegex
            (WAUtils.withPlus (WAUtils.cleanCore pl.To)) = false →
        (WASvc.processNotificationT pl send).2 = []
          ∧ isOkE (WASvc.processNotificationT pl send).1 = false) := by
  have hchar : ∀ phone : Str,
      WAUtils.CleanPhoneNumber phone
        = (if WAUtils.matchesPhoneRegex
              (WAUtils.withPlus (WAUtils.cleanCore phone))
           then Except.ok (WAUtils.withPlus (WAUtils.cleanCore phone))
           else Except.error WAUtils.PhoneErr.invalidPhoneNumber) := by
    intro phone
    by_cases hp : phone = []
    · subst hp; decide
    · simp [WAUtils.CleanPhoneNumber, hp]
  refine ⟨hchar, fun pl send h => ?_⟩
  cases hval : WASvc.IsValid pl with
  | some e => simp [WASvc.processNotificationT, hval, isOkE]
  | none =>
    have hcp : WAUtils.CleanPhoneNumber pl.To
        = Except.error WAUtils.PhoneErr.invalidPhoneNumber := by
      rw [hchar pl.To, h]
      simp
    simp [WASvc.processNotificationT, hval, hcp, isOkE]

/-- C10 witness: the characterization and the pipeline consequence
evaluated at concrete inputs — `"+0123"` (leading zero after `+`) is
rejected, and a request whose recipient cleans to `"+0123"` fails without
any message reaching the sender. -/
theorem c10_phone_validation_witness :
    WAUtils.CleanPhoneNumber (str "+0123")
        = Except.error WAUtils.PhoneErr.invalidPhoneNumber
      ∧ (WASvc.processNotificationT fxWaLeadZero (fun _ => .ok ())).2 = [] := by
  obtain ⟨hchar, hpipe⟩ := c10_phone_validation
  refine ⟨?_, (hpipe fxWaLeadZero (fun _ => .ok ()) (by decide)).1⟩
  rw [hchar (str "+0123")]
  decide
